import Mathlib

/-!
Verification of the go-socks5 SOCKS5 proxy engine.

This file gives a shallow embedding, in Lean 4, of the parts of the
go-socks5 repository that the checked properties talk about:

* the reply-code and address-type wire constants (request.go),
* the address codec `readAddrSpec` / `sendReply` (request.go),
* the authentication negotiation `readMethods` / `authenticate` /
  `noAcceptableAuth` (auth.go),
* the request pipeline `handleRequest` / `handleConnect` / `handleBind` /
  `handleAssociate` (request.go), with the name resolver, rule set,
  address rewriter and outbound dial modelled as explicit oracles,
* server construction `New` (socks5.go) and the rule sets of ruleset.go,
* the graceful-shutdown accept loop `asyncServe` / `Stop` (socks5.go),
  modelled as an executable step function on an explicit loop state.

Bytes are modelled as `Nat` with explicit `% 256` / `% 65536` at the
points where the Go code performs a narrowing conversion.  Byte strings
(Go `string` and `net.IP` values) are modelled as `List Nat`.  Streams
are modelled as lists of bytes consumed from the front; each `Read` /
`ReadAtLeast` of the source either takes the requested bytes or fails.
Writes to the client connection are collected into a list of frames.
-/

namespace GoSocks5

/-- A Go `byte`; values are kept below 256 by explicit `% 256` at the
translation of each narrowing conversion. -/
abbrev Byte := Nat

/-- socks5.go: `socks5Version = uint8(5)`. -/
def socks5Version : Byte := 5

/-- request.go: `connectCommand = uint8(1)`. -/
def connectCommand : Byte := 1

/-- request.go: `bindCommand = uint8(2)`. -/
def bindCommand : Byte := 2

/-- request.go: `associateCommand = uint8(3)`. -/
def associateCommand : Byte := 3

/-- request.go: `ipv4Address = uint8(1)`. -/
def ipv4Address : Byte := 1

/-- request.go: `fqdnAddress = uint8(3)`. -/
def fqdnAddress : Byte := 3

/-- request.go: `ipv6Address = uint8(4)`. -/
def ipv6Address : Byte := 4

/-- request.go: `successReply uint8 = iota` — first of the iota block. -/
def successReply : Byte := 0

/-- request.go: second constant of the iota reply block. -/
def serverFailure : Byte := 1

/-- request.go: third constant of the iota reply block. -/
def ruleFailure : Byte := 2

/-- request.go: fourth constant of the iota reply block. -/
def networkUnreachable : Byte := 3

/-- request.go: fifth constant of the iota reply block. -/
def hostUnreachable : Byte := 4

/-- request.go: sixth constant of the iota reply block. -/
def connectionRefused : Byte := 5

/-- request.go: seventh constant of the iota reply block. -/
def ttlExpired : Byte := 6

/-- request.go: eighth constant of the iota reply block. -/
def commandNotSupported : Byte := 7

/-- request.go: ninth constant of the iota reply block. -/
def addrTypeNotSupported : Byte := 8

/-- auth.go: `noAuth = uint8(0)`. -/
def noAuth : Byte := 0

/-- auth.go: `noAcceptable = uint8(255)`. -/
def noAcceptable : Byte := 255

/-- auth.go: `userPassAuth = uint8(2)`. -/
def userPassAuth : Byte := 2

/-- A Go `net.IP`: a raw byte slice, either 4 bytes (IPv4) or 16 bytes
(IPv6).  `nil` is modelled as the empty list. -/
abbrev IPBytes := List Byte

/-- Go standard library `net.IP.To4`: a 4-byte slice is returned as is; a
16-byte slice is converted to its trailing 4 bytes when it is an
IPv4-mapped IPv6 address (ten zero bytes then `0xff 0xff`); anything
else yields `nil` (here `none`). -/
def ipTo4 (ip : IPBytes) : Option IPBytes :=
  if ip.length = 4 then some ip
  else if ip.length = 16 ∧ ip.take 10 = List.replicate 10 0 ∧
      ip.getD 10 0 = 255 ∧ ip.getD 11 0 = 255 then
    some (ip.drop 12)
  else none

/-- The 12-byte prefix that `net.IP.To16` puts before a 4-byte address. -/
def v4InV6Prefix : IPBytes := [0, 0, 0, 0, 0, 0, 0, 0, 0, 0, 255, 255]

/-- Go standard library `net.IP.To16`: a 4-byte slice is widened to the
IPv4-mapped 16-byte form, a 16-byte slice is returned as is, anything
else yields `nil` (here `none`). -/
def ipTo16 (ip : IPBytes) : Option IPBytes :=
  if ip.length = 4 then some (v4InV6Prefix ++ ip)
  else if ip.length = 16 then some ip
  else none

/-- request.go `AddrSpec`: `FQDN string; IP net.IP; Port int`.  The FQDN
is kept as its byte sequence; the empty list models the empty string. -/
structure AddrSpec where
  fqdn : List Byte
  ip : IPBytes
  port : Nat
deriving DecidableEq

/-- request.go `sendReply`, address-formatting switch: given the optional
`AddrSpec`, produce `(addrType, addrBody, addrPort)` exactly as the
`switch` at the top of `sendReply` does, or `none` for the
`"Failed to format address"` default case.  A `nil` address becomes the
zero IPv4 address and port zero.  `byte(len(addr.FQDN))` is the length
truncated to a byte, and `uint16(addr.Port)` is the port truncated to
sixteen bits. -/
def formatReplyAddr : Option AddrSpec → Option (Byte × List Byte × Nat)
  | none => some (ipv4Address, [0, 0, 0, 0], 0)
  | some a =>
    if a.fqdn ≠ [] then
      some (fqdnAddress, (a.fqdn.length % 256) :: a.fqdn, a.port % 65536)
    else
      match ipTo4 a.ip with
      | some b4 => some (ipv4Address, b4, a.port % 65536)
      | none =>
        match ipTo16 a.ip with
        | some b16 => some (ipv6Address, b16, a.port % 65536)
        | none => none

/-- request.go `sendReply`: the message written to the client is
`{socks5Version, resp, 0, addrType} ++ addrBody ++ {port >> 8, port & 0xff}`;
for `addrPort < 2^16` the two port bytes are `addrPort / 256` and
`addrPort % 256`.  The default case of the address switch returns the
`"Failed to format address"` error instead of writing. -/
def sendReplyMsg (resp : Byte) (addr : Option AddrSpec) : Except String (List Byte) :=
  match formatReplyAddr addr with
  | none => Except.error "Failed to format address"
  | some (addrType, addrBody, addrPort) =>
    Except.ok ([socks5Version, resp, 0, addrType] ++ addrBody ++
      [addrPort / 256, addrPort % 256])

/-- One `io.ReadAtLeast(r, buf, n)` on a byte-list stream: take the first
`n` bytes and return them with the remainder, or fail when the stream is
shorter than `n`. -/
def readN (n : Nat) (l : List Byte) : Option (List Byte × List Byte) :=
  if n ≤ l.length then some (l.take n, l.drop n) else none

/-- request.go `readAddrSpec`, port step: read two bytes and combine them
as `(int(port[0]) << 8) | int(port[1])`. -/
def readPort (l : List Byte) : Option (Nat × List Byte) :=
  match l with
  | p0 :: p1 :: rest => some ((p0 <<< 8) ||| p1, rest)
  | _ => none

/-- The two failure modes of `readAddrSpec`: a short read, or the
`unrecognizedAddrType` error of the default switch case. -/
inductive ReadErr where
  | truncated
  | unrecognizedAddrType
deriving DecidableEq

/-- request.go `readAddrSpec`: read one address-type byte, then per type
an IPv4 (4 bytes), IPv6 (16 bytes) or domain (one length byte, then that
many bytes) address, then the 2-byte big-endian port.  Unknown type
bytes yield the `unrecognizedAddrType` error. -/
def readAddrSpec (input : List Byte) : Except ReadErr (AddrSpec × List Byte) :=
  match input with
  | [] => Except.error ReadErr.truncated
  | t :: rest =>
    if t = ipv4Address then
      match readN 4 rest with
      | none => Except.error ReadErr.truncated
      | some (addr, rest1) =>
        match readPort rest1 with
        | none => Except.error ReadErr.truncated
        | some (p, rest2) => Except.ok (⟨[], addr, p⟩, rest2)
    else if t = ipv6Address then
      match readN 16 rest with
      | none => Except.error ReadErr.truncated
      | some (addr, rest1) =>
        match readPort rest1 with
        | none => Except.error ReadErr.truncated
        | some (p, rest2) => Except.ok (⟨[], addr, p⟩, rest2)
    else if t = fqdnAddress then
      match rest with
      | [] => Except.error ReadErr.truncated
      | n :: rest1 =>
        match readN n rest1 with
        | none => Except.error ReadErr.truncated
        | some (fqdn, rest2) =>
          match readPort rest2 with
          | none => Except.error ReadErr.truncated
          | some (p, rest3) => Except.ok (⟨fqdn, [], p⟩, rest3)
    else Except.error ReadErr.unrecognizedAddrType

/-- Encode an `AddrSpec` with `sendReply` and decode the address-type,
address and port fields of the produced frame (everything after the
3-byte `{version, reply, reserved}` prefix) with `readAddrSpec`. -/
def replyRoundTrip (a : AddrSpec) : Option AddrSpec :=
  match sendReplyMsg successReply (some a) with
  | Except.error _ => none
  | Except.ok msg =>
    match readAddrSpec (msg.drop 3) with
    | Except.error _ => none
    | Except.ok (d, _) => some d

/-- A Go `CredentialStore`: `Valid(user, password string) bool`, with the
strings as byte sequences. -/
abbrev CredentialStore := List Byte → List Byte → Bool

/-- auth.go `Authenticator` implementations: `NoAuthAuthenticator`,
`UserPassAuthenticator{Credentials}` and, since the interface is open,
an arbitrary further implementation carrying its method code. -/
inductive Authenticator where
  | noAuthAuthenticator
  | userPassAuthenticator (credentials : CredentialStore)
  | custom (code : Byte)

/-- auth.go `GetCode`: `NoAuthAuthenticator` answers `noAuth`,
`UserPassAuthenticator` answers `userPassAuth`. -/
def Authenticator.getCode : Authenticator → Byte
  | .noAuthAuthenticator => noAuth
  | .userPassAuthenticator _ => userPassAuth
  | .custom c => c

/-- auth.go `readMethods`: read one count byte, then that many method
bytes. -/
def readMethods (input : List Byte) : Option (List Byte × List Byte) :=
  match input with
  | [] => none
  | n :: rest => readN n rest

/-- The loop body of auth.go `authenticate`: scan the client's offered
methods in order and return the first one that is present in the
server's registry, with its `Authenticator`. -/
def findCator (reg : Byte → Option Authenticator) : List Byte → Option (Byte × Authenticator)
  | [] => none
  | m :: ms =>
    match reg m with
    | some c => some (m, c)
    | none => findCator reg ms

/-- Outcome of auth.go `authenticate`: the method-read failed; or a
registered method was found and its `Authenticator.Authenticate` is
invoked on the remaining stream; or no offered method is registered, in
which case `noAcceptableAuth` writes `{socks5Version, noAcceptable}` and
the `NoSupportedAuth` error is returned. -/
inductive AuthOutcome where
  | readFailed
  | invoked (method : Byte) (cator : Authenticator) (rest : List Byte)
  | noSupportedAuth (written : List Byte)

/-- auth.go `authenticate`: `readMethods`, then the first offered method
found in the registry wins; with no match, `noAcceptableAuth` writes the
two bytes `{socks5Version, noAcceptable}` and fails. -/
def authenticate (reg : Byte → Option Authenticator) (input : List Byte) : AuthOutcome :=
  match readMethods input with
  | none => AuthOutcome.readFailed
  | some (methods, rest) =>
    match findCator reg methods with
    | some (m, c) => AuthOutcome.invoked m c rest
    | none => AuthOutcome.noSupportedAuth [socks5Version, noAcceptable]

/-- ruleset.go `RuleSet`: `AllowConnect` / `AllowBind` / `AllowAssociate`,
each a pure function of destination IP/port and source IP/port. -/
structure RuleSet where
  allowConnect : IPBytes → Nat → IPBytes → Nat → Bool
  allowBind : IPBytes → Nat → IPBytes → Nat → Bool
  allowAssociate : IPBytes → Nat → IPBytes → Nat → Bool

/-- ruleset.go `PermitCommand`: per-command enable flags. -/
structure PermitCommand where
  enableConnect : Bool
  enableBind : Bool
  enableAssociate : Bool

/-- The `RuleSet` behaviour of a `PermitCommand` value: each `Allow*`
method returns its flag, ignoring the addresses. -/
def PermitCommand.rules (p : PermitCommand) : RuleSet :=
  { allowConnect := fun _ _ _ _ => p.enableConnect
    allowBind := fun _ _ _ _ => p.enableBind
    allowAssociate := fun _ _ _ _ => p.enableAssociate }

/-- ruleset.go `PermitAll`: `PermitCommand{true, true, true}`. -/
def PermitAll : RuleSet := (PermitCommand.mk true true true).rules

/-- ruleset.go `PermitNone`: `PermitCommand{false, false, false}`. -/
def PermitNone : RuleSet := (PermitCommand.mk false false false).rules

/-- A `NameResolver`: either the default `DNSResolver{}` — which
delegates to system name resolution, an external effect modelled by the
ambient oracle passed to `resolve` — or a custom resolver function. -/
inductive NameResolver where
  | dns
  | custom (f : List Byte → Except String IPBytes)

/-- `NameResolver.Resolve(name)`: the default resolver consults the
ambient system-resolution oracle `sys`; a custom resolver runs its own
function. -/
def NameResolver.resolve : NameResolver → (List Byte → Except String IPBytes) →
    List Byte → Except String IPBytes
  | .dns, sys, name => sys name
  | .custom f, _, name => f name

/-- The address the dialled outbound socket ends up bound/connected to:
a Go `net.TCPAddr` with its `IP` and `Port`. -/
structure TCPAddr where
  ip : IPBytes
  port : Nat
deriving DecidableEq

/-- socks5.go `Connector`: `func(net, address string) (net.Conn, error)`.
The platform default `net.Dial` is a distinguished value; a custom
connector carries its own function, which answers either an error
message or the local address of the established connection. -/
inductive Connector where
  | netDial
  | custom (f : String → String → Except String TCPAddr)

/-- socks5.go `Config`: the user-supplied configuration, with `nil`
fields as `none` / the empty list. -/
structure Config where
  authMethods : List Authenticator
  credentials : Option CredentialStore
  resolver : Option NameResolver
  rules : Option RuleSet
  rewriter : Option (AddrSpec → AddrSpec)
  bindIP : IPBytes
  connectFunc : Option Connector

/-- The configuration as it stands after `New` has applied its defaults:
resolver, rules and connect function are populated; the rewriter remains
optional (`New` installs no default for it). -/
structure ServerConfig where
  authMethods : List Authenticator
  credentials : Option CredentialStore
  resolver : NameResolver
  rules : RuleSet
  rewriter : Option (AddrSpec → AddrSpec)
  bindIP : IPBytes
  connectFunc : Connector

/-- socks5.go: the `for _, a := range conf.AuthMethods` loop of `New`,
building the `map[uint8]Authenticator` registry keyed by `GetCode()`;
a later entry with the same code overwrites an earlier one. -/
def buildRegistry (cats : List Authenticator) : Byte → Option Authenticator :=
  cats.foldl (fun reg a => fun code => if code = a.getCode then some a else reg code)
    (fun _ => none)

/-- socks5.go `Server`: the (defaulted) configuration plus the
authenticator registry. -/
structure Server where
  config : ServerConfig
  authMethods : Byte → Option Authenticator

/-- socks5.go `New`: ensure at least one authenticator (`UserPass` when
credentials were supplied, otherwise `NoAuth`), default the resolver to
`DNSResolver{}`, the rules to `PermitAll()` and the connect function to
`net.Dial`, build the registry, and return the server; the error result
is always `nil`. -/
def New (conf : Config) : Except String Server :=
  let ams :=
    if conf.authMethods.length = 0 then
      match conf.credentials with
      | some cred => [Authenticator.userPassAuthenticator cred]
      | none => [Authenticator.noAuthAuthenticator]
    else conf.authMethods
  let resolver :=
    match conf.resolver with
    | none => NameResolver.dns
    | some r => r
  let rules :=
    match conf.rules with
    | none => PermitAll
    | some r => r
  let connectFunc :=
    match conf.connectFunc with
    | none => Connector.netDial
    | some f => f
  Except.ok
    { config :=
        { authMethods := ams
          credentials := conf.credentials
          resolver := resolver
          rules := rules
          rewriter := conf.rewriter
          bindIP := conf.bindIP
          connectFunc := connectFunc }
      authMethods := buildRegistry ams }

/-- The outbound `net.DialTCP("tcp", nil, &addr)` call, as an oracle from
the destination IP and port to either an error message or the local
`net.TCPAddr` of the established connection. -/
abbrev Dialer := IPBytes → Nat → Except String TCPAddr

/-- The ambient system effects of the request pipeline: system name
resolution (used by `DNSResolver`) and the TCP dial. -/
structure SysEnv where
  dns : List Byte → Except String IPBytes
  dial : Dialer

/-- How a request handler run ends, mirroring the error returns of
request.go (message formatting aside): the distinct `fmt.Errorf` sites
become distinct constructors. -/
inductive GoResult where
  | headerShort
  | unsupportedVersion (v : Byte)
  | addrReadFailed
  | resolveFailed (msg : String)
  | unsupportedCommand (c : Byte)
  | blockedByRules
  | connectFailed (msg : String)
  | replyFormatFailed
  | proxied
  | ok
deriving DecidableEq

/-- Observable outcome of a handler: the reply frames written to the
client, the dial attempts made through the system dialler (destination
IP and port of each `net.DialTCP` call), and the result. -/
structure HandlerOut where
  frames : List (List Byte)
  dials : List (IPBytes × Nat)
  result : GoResult
deriving DecidableEq

/-- Substring search over character lists: does `sub` occur contiguously
inside the other list?  Scans every suffix for `sub` as a prefix. -/
def containsSeq (sub : List Char) : List Char → Bool
  | [] => sub.isPrefixOf []
  | c :: cs => sub.isPrefixOf (c :: cs) || containsSeq sub cs

/-- Go `strings.Contains(s, substr)`: substring containment, used by
`handleConnect` to classify dial-failure messages. -/
def goContains (s sub : String) : Bool := containsSeq sub.toList s.toList

/-- request.go `handleConnect`: check `Rules.AllowConnect` on the
rewritten destination against the client address; on denial send a
`ruleFailure` reply and fail with the "blocked by rules" error; else
dial `realDest` with `net.DialTCP`, classifying a dial failure by its
message text (`refused` → `connectionRefused`, else
`network is unreachable` → `networkUnreachable`, else
`hostUnreachable`) and sending that reply before failing; on success
send a `successReply` carrying the local address of the outbound socket
and start proxying. -/
def handleConnect (dial : Dialer) (s : Server) (client : TCPAddr)
    (dest realDest : AddrSpec) : HandlerOut :=
  if !(s.config.rules.allowConnect realDest.ip realDest.port client.ip client.port) then
    match sendReplyMsg ruleFailure none with
    | Except.error _ => ⟨[], [], GoResult.replyFormatFailed⟩
    | Except.ok m => ⟨[m], [], GoResult.blockedByRules⟩
  else
    match dial realDest.ip realDest.port with
    | Except.error msg =>
      let resp :=
        if goContains msg "refused" then connectionRefused
        else if goContains msg "network is unreachable" then networkUnreachable
        else hostUnreachable
      match sendReplyMsg resp none with
      | Except.error _ => ⟨[], [(realDest.ip, realDest.port)], GoResult.replyFormatFailed⟩
      | Except.ok m => ⟨[m], [(realDest.ip, realDest.port)], GoResult.connectFailed msg⟩
    | Except.ok localAddr =>
      match sendReplyMsg successReply (some ⟨[], localAddr.ip, localAddr.port⟩) with
      | Except.error _ => ⟨[], [(realDest.ip, realDest.port)], GoResult.replyFormatFailed⟩
      | Except.ok m => ⟨[m], [(realDest.ip, realDest.port)], GoResult.proxied⟩

/-- request.go `handleBind`: rule check on the rewritten destination;
on denial a `ruleFailure` reply and the "blocked by rules" error;
otherwise a `commandNotSupported` reply and a `nil` return. -/
def handleBind (s : Server) (client : TCPAddr) (dest realDest : AddrSpec) : HandlerOut :=
  if !(s.config.rules.allowBind realDest.ip realDest.port client.ip client.port) then
    match sendReplyMsg ruleFailure none with
    | Except.error _ => ⟨[], [], GoResult.replyFormatFailed⟩
    | Except.ok m => ⟨[m], [], GoResult.blockedByRules⟩
  else
    match sendReplyMsg commandNotSupported none with
    | Except.error _ => ⟨[], [], GoResult.replyFormatFailed⟩
    | Except.ok m => ⟨[m], [], GoResult.ok⟩

/-- request.go `handleAssociate`: rule check on the rewritten
destination; on denial a `ruleFailure` reply and the "blocked by rules"
error; otherwise a `commandNotSupported` reply and a `nil` return. -/
def handleAssociate (s : Server) (client : TCPAddr) (dest realDest : AddrSpec) : HandlerOut :=
  if !(s.config.rules.allowAssociate realDest.ip realDest.port client.ip client.port) then
    match sendReplyMsg ruleFailure none with
    | Except.error _ => ⟨[], [], GoResult.replyFormatFailed⟩
    | Except.ok m => ⟨[m], [], GoResult.blockedByRules⟩
  else
    match sendReplyMsg commandNotSupported none with
    | Except.error _ => ⟨[], [], GoResult.replyFormatFailed⟩
    | Except.ok m => ⟨[m], [], GoResult.ok⟩

/-- request.go `handleRequest`: read the 3-byte `{version, command,
reserved}` header, reject a wrong version, decode the destination with
`readAddrSpec` (answering `addrTypeNotSupported` for an unknown address
type), resolve a domain destination through the configured resolver
(answering `hostUnreachable` on failure), apply the configured
`Rewriter` to the resolved destination to obtain `realDest`, and
dispatch on the command byte, answering `commandNotSupported` for an
unknown command. -/
def handleRequest (sys : SysEnv) (s : Server) (client : TCPAddr)
    (input : List Byte) : HandlerOut :=
  match input with
  | v :: cmd :: _rsv :: rest =>
    if v ≠ socks5Version then ⟨[], [], GoResult.unsupportedVersion v⟩
    else
      match readAddrSpec rest with
      | Except.error ReadErr.unrecognizedAddrType =>
        match sendReplyMsg addrTypeNotSupported none with
        | Except.error _ => ⟨[], [], GoResult.replyFormatFailed⟩
        | Except.ok m => ⟨[m], [], GoResult.addrReadFailed⟩
      | Except.error ReadErr.truncated => ⟨[], [], GoResult.addrReadFailed⟩
      | Except.ok (dest0, _remaining) =>
        let resolved : Except String AddrSpec :=
          if dest0.fqdn ≠ [] then
            match s.config.resolver.resolve sys.dns dest0.fqdn with
            | Except.error e => Except.error e
            | Except.ok addr => Except.ok { dest0 with ip := addr }
          else Except.ok dest0
        match resolved with
        | Except.error e =>
          match sendReplyMsg hostUnreachable none with
          | Except.error _ => ⟨[], [], GoResult.replyFormatFailed⟩
          | Except.ok m => ⟨[m], [], GoResult.resolveFailed e⟩
        | Except.ok dest =>
          let realDest :=
            match s.config.rewriter with
            | some rw => rw dest
            | none => dest
          if cmd = connectCommand then handleConnect sys.dial s client dest realDest
          else if cmd = bindCommand then handleBind s client dest realDest
          else if cmd = associateCommand then handleAssociate s client dest realDest
          else
            match sendReplyMsg commandNotSupported none with
            | Except.error _ => ⟨[], [], GoResult.replyFormatFailed⟩
            | Except.ok m => ⟨[m], [], GoResult.unsupportedCommand cmd⟩
  | _ => ⟨[], [], GoResult.headerShort⟩

/-- State of the socks5.go `asyncServe` accept loop together with the
`sync.WaitGroup` of spawned connections: whether the loop is still at
its `select`/accept iteration, the wait-group counter (`wg.Add(1)` per
accepted connection, `wg.Done` per completed one), the shutdown signal
received from `Stop` on the unbuffered channel `s.ch` (carrying its
`wait` flag), and whether `l.Close()` has run. -/
structure ServeState where
  accepting : Bool
  live : Nat
  stopSignal : Option Bool
  closed : Bool
deriving DecidableEq

/-- The possible events of one `asyncServe` execution, interleaved with
the completions of the connection goroutines it spawned:
`accept` is a successful `l.Accept()` followed by `wg.Add(1)` and
spawning `ServeConn`; `acceptTimeout` is the deadline-timeout branch
that just continues the loop; `connDone` is a spawned connection
finishing (`wg.Done`); `stop w` is the loop receiving `w` from `s.ch`
(the rendezvous with `Stop(w)`, after which the loop breaks);
`finish` is the code after the loop: `if wait { wg.Wait() }; l.Close()`. -/
inductive ServeEvent where
  | accept
  | acceptTimeout
  | connDone
  | stop (wait : Bool)
  | finish
deriving DecidableEq

/-- One step of the `asyncServe` transition system.  `none` means the
event cannot happen in this state: the loop no longer accepts once it
has received the stop signal, `stop` can only synchronise while the loop
is still at its `select`, and `finish` in wait mode is blocked by
`wg.Wait()` until the live count is zero; without wait it closes the
listener immediately. -/
def serveStep (s : ServeState) (e : ServeEvent) : Option ServeState :=
  match e with
  | ServeEvent.accept =>
    if s.accepting && !s.closed then some { s with live := s.live + 1 } else none
  | ServeEvent.acceptTimeout =>
    if s.accepting && !s.closed then some s else none
  | ServeEvent.connDone =>
    match s.live with
    | 0 => none
    | n + 1 => some { s with live := n }
  | ServeEvent.stop w =>
    if s.accepting && s.stopSignal = none then
      some { s with accepting := false, stopSignal := some w }
    else none
  | ServeEvent.finish =>
    match s.stopSignal with
    | some w =>
      if !s.closed && (!w || s.live = 0) then some { s with closed := true } else none
    | none => none

/-- The state in which `asyncServe` starts: loop accepting, no spawned
connections, no stop signal, listener open. -/
def initState : ServeState := ⟨true, 0, none, false⟩

/-- Run a sequence of `asyncServe` events from a state; `none` when some
event in the list is impossible. -/
def runServe : ServeState → List ServeEvent → Option ServeState
  | s, [] => some s
  | s, e :: es =>
    match serveStep s e with
    | some s' => runServe s' es
    | none => none

/-- A server fixture: no-auth authenticator, default resolver, permit-all
rules, no rewriter, default connector — what `New` builds from the empty
configuration. -/
def sampleServer : Server :=
  { config :=
      { authMethods := [Authenticator.noAuthAuthenticator]
        credentials := none
        resolver := NameResolver.dns
        rules := PermitAll
        rewriter := none
        bindIP := []
        connectFunc := Connector.netDial }
    authMethods := buildRegistry [Authenticator.noAuthAuthenticator] }

/-- `sampleServer` with a `RuleSet` that denies every command. -/
def denyServer : Server :=
  { sampleServer with config := { sampleServer.config with rules := PermitNone } }

/-- `sampleServer` with a custom resolver and a rewriter that redirects
every destination to `9.9.9.9:443`. -/
def rwServer : Server :=
  { sampleServer with
    config :=
      { sampleServer.config with
        resolver := NameResolver.custom fun _ => Except.ok [1, 1, 1, 1]
        rewriter := some fun _ => ⟨[], [9, 9, 9, 9], 443⟩ } }

/-- The zero-value `Config`: every field `nil`. -/
def emptyConfig : Config := ⟨[], none, none, none, none, [], none⟩

/-- A system-oracle fixture whose dial always fails with a
connection-refused message. -/
def sampleSys : SysEnv :=
  ⟨fun _ => Except.error "no system resolver", fun _ _ => Except.error "connection refused"⟩

theorem takeLen_append {α : Type} (l r : List α) : (l ++ r).take l.length = l := by
  induction l with
  | nil => rfl
  | cons a as ih => simp [ih]

theorem dropLen_append {α : Type} (l r : List α) : (l ++ r).drop l.length = r := by
  induction l with
  | nil => rfl
  | cons a as ih => simp [ih]

theorem readN_append (n : Nat) (l r : List Byte) (h : l.length = n) :
    readN n (l ++ r) = some (l, r) := by
  subst h
  unfold readN
  rw [if_pos (by simp)]
  rw [takeLen_append, dropLen_append]

theorem shiftLeft_lor_eq (k x b : Nat) (hb : b < 2 ^ k) :
    (x <<< k) ||| b = x * 2 ^ k + b := by
  induction k generalizing x b with
  | zero =>
    have hb0 : b = 0 := Nat.lt_one_iff.mp (by simpa using hb)
    subst hb0
    simp [Nat.shiftLeft_eq]
  | succ k ih =>
    have hdiv : b / 2 < 2 ^ k := by
      have h2 : b < 2 ^ k * 2 := by simpa [Nat.pow_succ] using hb
      omega
    have hx : x <<< (k + 1) = Nat.bit false (x <<< k) := by
      simp [Nat.shiftLeft_eq, Nat.bit_val]
      ring
    have hbd : Nat.bit (Nat.bodd b) (Nat.div2 b) = b := Nat.bit_decomp b
    have hmod : b % 2 = (Nat.bodd b).toNat := Nat.mod_two_of_bodd b
    calc (x <<< (k + 1)) ||| b
        = Nat.bit false (x <<< k) ||| Nat.bit (Nat.bodd b) (Nat.div2 b) := by
          rw [hx, hbd]
      _ = Nat.bit (false || Nat.bodd b) ((x <<< k) ||| Nat.div2 b) :=
          Nat.lor_bit false (x <<< k) (Nat.bodd b) (Nat.div2 b)
      _ = Nat.bit (Nat.bodd b) (x * 2 ^ k + b / 2) := by
          rw [Bool.false_or, Nat.div2_val, ih x (b / 2) hdiv]
      _ = 2 * (x * 2 ^ k + b / 2) + b % 2 := by rw [Nat.bit_val, hmod]
      _ = x * 2 ^ (k + 1) + b := by
          have hr : x * 2 ^ (k + 1) = 2 * (x * 2 ^ k) := by ring
          rw [hr]
          have hdm := Nat.div_add_mod b 2
          omega

theorem readPort_encode (p : Nat) (hp : p < 65536) (r : List Byte) :
    readPort (p / 256 :: p % 256 :: r) = some (p, r) := by
  have h : (p / 256) <<< 8 ||| p % 256 = p := by
    rw [shiftLeft_lor_eq 8 (p / 256) (p % 256) (by omega)]
    have hdm := Nat.div_add_mod p 256
    omega
  simp [readPort, h]

theorem serveStep_inv (s s' : ServeState) (e : ServeEvent)
    (h0 : s.stopSignal.isSome = true → s.accepting = false)
    (hstep : serveStep s e = some s') :
    s'.stopSignal.isSome = true → s'.accepting = false := by
  cases e with
  | accept =>
    simp only [serveStep] at hstep
    split at hstep
    · cases hstep; exact h0
    · cases hstep
  | acceptTimeout =>
    simp only [serveStep] at hstep
    split at hstep
    · cases hstep; exact h0
    · cases hstep
  | connDone =>
    simp only [serveStep] at hstep
    split at hstep
    · cases hstep
    · cases hstep; exact h0
  | stop w =>
    simp only [serveStep] at hstep
    split at hstep
    · cases hstep; intro _; rfl
    · cases hstep
  | finish =>
    simp only [serveStep] at hstep
    split at hstep
    · split at hstep
      · cases hstep; exact h0
      · cases hstep
    · cases hstep

theorem runServe_stop_not_accepting :
    ∀ (es : List ServeEvent) (s0 s : ServeState),
      (s0.stopSignal.isSome = true → s0.accepting = false) →
      runServe s0 es = some s →
      (s.stopSignal.isSome = true → s.accepting = false) := by
  intro es
  induction es with
  | nil =>
    intro s0 s h0 hrun
    cases hrun
    exact h0
  | cons e es ih =>
    intro s0 s h0 hrun
    unfold runServe at hrun
    cases hstep : serveStep s0 e with
    | none => rw [hstep] at hrun; cases hrun
    | some s1 =>
      rw [hstep] at hrun
      exact ih s1 s (serveStep_inv s0 s1 e h0 hstep) hrun

theorem findCator_none (reg : Byte → Option Authenticator) (ms : List Byte)
    (h : ∀ m ∈ ms, reg m = none) : findCator reg ms = none := by
  induction ms with
  | nil => rfl
  | cons m ms ih =>
    simp only [findCator]
    rw [h m (by simp)]
    exact ih fun x hx => h x (by simp [hx])

theorem findCator_first (reg : Byte → Option Authenticator) (ms : List Byte) (i : Nat)
    (hi : i < ms.length)
    (hbefore : ∀ j, j < i → reg (ms.getD j 0) = none)
    (c : Authenticator) (hc : reg (ms.getD i 0) = some c) :
    findCator reg ms = some (ms.getD i 0, c) := by
  induction ms generalizing i with
  | nil => cases hi
  | cons m ms ih =>
    cases i with
    | zero =>
      simp only [List.getD_cons_zero] at hc ⊢
      simp only [findCator, hc]
    | succ i =>
      have h0 : reg m = none := by
        have h1 := hbefore 0 (Nat.succ_pos i)
        simpa using h1
      simp only [List.getD_cons_succ] at hc ⊢
      simp only [findCator, h0]
      exact ih i (by simpa using hi)
        (fun j hj => by simpa using hbefore (j + 1) (by omega)) hc

theorem sendReply_ipv4_form (resp : Byte) (a : AddrSpec) (hf : a.fqdn = [])
    (h4 : a.ip.length = 4) (hp : a.port < 65536) :
    sendReplyMsg resp (some a) =
      Except.ok ([socks5Version, resp, 0, ipv4Address] ++ a.ip ++
        [a.port / 256, a.port % 256]) := by
  have ht : ipTo4 a.ip = some a.ip := by unfold ipTo4; rw [if_pos h4]
  have hm : a.port % 65536 = a.port := Nat.mod_eq_of_lt hp
  simp [sendReplyMsg, formatReplyAddr, hf, ht, hm]

theorem sendReply_ipv6_form (resp : Byte) (a : AddrSpec) (hf : a.fqdn = [])
    (h16 : a.ip.length = 16) (hn4 : ipTo4 a.ip = none) (hp : a.port < 65536) :
    sendReplyMsg resp (some a) =
      Except.ok ([socks5Version, resp, 0, ipv6Address] ++ a.ip ++
        [a.port / 256, a.port % 256]) := by
  have ht : ipTo16 a.ip = some a.ip := by
    unfold ipTo16
    rw [if_neg (by omega), if_pos h16]
  have hm : a.port % 65536 = a.port := Nat.mod_eq_of_lt hp
  simp [sendReplyMsg, formatReplyAddr, hf, hn4, ht, hm]

theorem sendReply_fqdn_form (resp : Byte) (a : AddrSpec) (hf : a.fqdn ≠ [])
    (hlen : a.fqdn.length ≤ 255) (hp : a.port < 65536) :
    sendReplyMsg resp (some a) =
      Except.ok ([socks5Version, resp, 0, fqdnAddress] ++ (a.fqdn.length :: a.fqdn) ++
        [a.port / 256, a.port % 256]) := by
  have hl : a.fqdn.length % 256 = a.fqdn.length := Nat.mod_eq_of_lt (by omega)
  have hm : a.port % 65536 = a.port := Nat.mod_eq_of_lt hp
  simp [sendReplyMsg, formatReplyAddr, hf, hl, hm]

theorem replyRoundTrip_ipv4 (ip : IPBytes) (p : Nat) (h4 : ip.length = 4) (hp : p < 65536) :
    replyRoundTrip ⟨[], ip, p⟩ = some ⟨[], ip, p⟩ := by
  unfold replyRoundTrip
  rw [sendReply_ipv4_form successReply ⟨[], ip, p⟩ rfl h4 hp]
  have h1 := readN_append 4 ip (p / 256 :: p % 256 :: []) h4
  have h2 := readPort_encode p hp []
  simp [readAddrSpec, ipv4Address, ipv6Address, fqdnAddress, h1, h2]

theorem replyRoundTrip_ipv6 (ip : IPBytes) (p : Nat) (h16 : ip.length = 16)
    (hn4 : ipTo4 ip = none) (hp : p < 65536) :
    replyRoundTrip ⟨[], ip, p⟩ = some ⟨[], ip, p⟩ := by
  unfold replyRoundTrip
  rw [sendReply_ipv6_form successReply ⟨[], ip, p⟩ rfl h16 hn4 hp]
  have h1 := readN_append 16 ip (p / 256 :: p % 256 :: []) h16
  have h2 := readPort_encode p hp []
  simp [readAddrSpec, ipv4Address, ipv6Address, fqdnAddress, h1, h2]

theorem replyRoundTrip_fqdn (fq : List Byte) (ip0 : IPBytes) (p : Nat) (hf : fq ≠ [])
    (hlen : fq.length ≤ 255) (hp : p < 65536) :
    replyRoundTrip ⟨fq, ip0, p⟩ = some ⟨fq, [], p⟩ := by
  unfold replyRoundTrip
  rw [sendReply_fqdn_form successReply ⟨fq, ip0, p⟩ hf hlen hp]
  have h1 := readN_append fq.length fq (p / 256 :: p % 256 :: []) rfl
  have h2 := readPort_encode p hp []
  simp [readAddrSpec, ipv4Address, ipv6Address, fqdnAddress, h1, h2]

/-- C1: for every reply frame the server sends through `sendReply`, the
reply-code byte on the wire (index 1 of the frame) is exactly the reply
code handed to `sendReply`, and the nine reply constants of the iota
block in request.go are 0–8 in enumeration order, so the wire byte is
the position of the code in the enumeration. -/
theorem C1_replyCode_on_wire (resp : Byte) (addr : Option AddrSpec) (msg : List Byte)
    (h : sendReplyMsg resp addr = Except.ok msg) :
    msg.getD 1 0 = resp ∧
    [successReply, serverFailure, ruleFailure, networkUnreachable, hostUnreachable,
     connectionRefused, ttlExpired, commandNotSupported, addrTypeNotSupported] =
      [0, 1, 2, 3, 4, 5, 6, 7, 8] := by
  constructor
  · unfold sendReplyMsg at h
    cases hf : formatReplyAddr addr with
    | none => rw [hf] at h; cases h
    | some tri =>
      obtain ⟨t, body, p⟩ := tri
      rw [hf] at h
      cases h
      rfl
  · rfl

/-- Witness for C1 at the concrete success reply with no address. -/
theorem C1_witness :
    ([5, 0, 0, 1, 0, 0, 0, 0, 0, 0] : List Byte).getD 1 0 = successReply ∧
    [successReply, serverFailure, ruleFailure, networkUnreachable, hostUnreachable,
     connectionRefused, ttlExpired, commandNotSupported, addrTypeNotSupported] =
      [0, 1, 2, 3, 4, 5, 6, 7, 8] :=
  C1_replyCode_on_wire successReply none [5, 0, 0, 1, 0, 0, 0, 0, 0, 0] rfl

/-- C2 counterexample: the claim's byte-for-byte round-trip fails for a
supported 16-byte (IPv6-form) address.  The IPv4-mapped 16-byte address
`::ffff:1.2.3.4` is re-encoded by `sendReply` in its 4-byte IPv4 form
(because `net.IP.To4` succeeds on it), so decoding yields the 4-byte IP
`[1, 2, 3, 4]`, which is not byte-for-byte equal to the original
16-byte IP. -/
theorem C2_counterexample :
    replyRoundTrip ⟨[], [0, 0, 0, 0, 0, 0, 0, 0, 0, 0, 255, 255, 1, 2, 3, 4], 80⟩ =
      some ⟨[], [1, 2, 3, 4], 80⟩ ∧
    (⟨[], [1, 2, 3, 4], 80⟩ : AddrSpec) ≠
      ⟨[], [0, 0, 0, 0, 0, 0, 0, 0, 0, 0, 255, 255, 1, 2, 3, 4], 80⟩ := by
  constructor
  · decide
  · decide

/-- C2 amended: encode-then-decode round-trips to an equal `AddrSpec` —
byte-for-byte for the IP forms — for 4-byte IPv4 addresses and for
16-byte IPv6 addresses that are not IPv4-mapped (`To4` fails on them),
and a non-empty domain name of at most 255 bytes round-trips to the
identical byte string and an equal port (its decoded IP field is empty,
as only the name is on the wire); ports are the wire-representable
0–65535. -/
theorem C2_roundTrip_amended (a : AddrSpec) (hp : a.port < 65536) :
    (a.fqdn = [] → a.ip.length = 4 → replyRoundTrip a = some a) ∧
    (a.fqdn = [] → a.ip.length = 16 → ipTo4 a.ip = none → replyRoundTrip a = some a) ∧
    (a.fqdn ≠ [] → a.fqdn.length ≤ 255 →
      replyRoundTrip a = some ⟨a.fqdn, [], a.port⟩) := by
  obtain ⟨fq, ip, p⟩ := a
  refine ⟨?_, ?_, ?_⟩
  · intro hf h4
    cases hf
    exact replyRoundTrip_ipv4 ip p h4 hp
  · intro hf h16 hn4
    cases hf
    exact replyRoundTrip_ipv6 ip p h16 hn4 hp
  · intro hf hlen
    exact replyRoundTrip_fqdn fq ip p hf hlen hp

/-- Witness for C2 at one concrete address of each supported form. -/
theorem C2_witness :
    replyRoundTrip ⟨[], [10, 0, 0, 1], 8080⟩ = some ⟨[], [10, 0, 0, 1], 8080⟩ ∧
    replyRoundTrip ⟨[], [32, 1, 13, 184, 0, 0, 0, 0, 0, 0, 0, 0, 0, 0, 0, 1], 443⟩ =
      some ⟨[], [32, 1, 13, 184, 0, 0, 0, 0, 0, 0, 0, 0, 0, 0, 0, 1], 443⟩ ∧
    replyRoundTrip ⟨[101, 120], [], 80⟩ = some ⟨[101, 120], [], 80⟩ := by
  refine ⟨?_, ?_, ?_⟩
  · exact (C2_roundTrip_amended ⟨[], [10, 0, 0, 1], 8080⟩ (by decide)).1 rfl rfl
  · exact (C2_roundTrip_amended ⟨[], [32, 1, 13, 184, 0, 0, 0, 0, 0, 0, 0, 0, 0, 0, 0, 1], 443⟩
      (by decide)).2.1 rfl rfl (by decide)
  · exact (C2_roundTrip_amended ⟨[101, 120], [], 80⟩ (by decide)).2.2 (by decide) (by decide)

/-- C3: every `sendReply` with no address still carries fully populated
fixed-format address fields: the frame is always the same 10-byte frame
with address type `ipv4Address`, address bytes `0.0.0.0` and port 0. -/
theorem C3_nil_addr_zero_ipv4 (resp : Byte) :
    sendReplyMsg resp none =
      Except.ok [socks5Version, resp, 0, ipv4Address, 0, 0, 0, 0, 0, 0] ∧
    (sendReplyMsg resp none).map List.length = Except.ok 10 := by
  exact ⟨rfl, rfl⟩

/-- C4: for every offered-method list (count byte `n`, then the methods)
the negotiation selects and invokes the authenticator of the first
offered code that is registered — the client's declared order decides,
the registry is consulted only as a set — and when no offered code is
registered, including the empty list, the server writes exactly
`{socks5Version, noAcceptable}` = `{0x05, 0xFF}` and fails with the
no-supported-authentication error. -/
theorem C4_auth_negotiation (reg : Byte → Option Authenticator) (n : Nat)
    (rest : List Byte) (hn : n ≤ rest.length) :
    (∀ i, i < (rest.take n).length →
      (∀ j, j < i → reg ((rest.take n).getD j 0) = none) →
      ∀ c, reg ((rest.take n).getD i 0) = some c →
      authenticate reg (n :: rest) =
        AuthOutcome.invoked ((rest.take n).getD i 0) c (rest.drop n)) ∧
    ((∀ m, m ∈ rest.take n → reg m = none) →
      authenticate reg (n :: rest) =
        AuthOutcome.noSupportedAuth [socks5Version, noAcceptable]) := by
  have hrm : readMethods (n :: rest) = some (rest.take n, rest.drop n) := by
    simp [readMethods, readN, hn]
  constructor
  · intro i hi hbefore c hc
    unfold authenticate
    simp only [hrm]
    rw [findCator_first reg (rest.take n) i hi hbefore c hc]
  · intro hnone
    unfold authenticate
    simp only [hrm]
    rw [findCator_none reg (rest.take n) hnone]

/-- Witness for C4: with only `NoAuth` registered, the offered list
`[7, 0]` selects code 0 (the first registered one in client order), and
the empty offered list yields the `{0x05, 0xFF}` failure. -/
theorem C4_witness :
    authenticate (buildRegistry [Authenticator.noAuthAuthenticator]) [2, 7, 0] =
      AuthOutcome.invoked 0 Authenticator.noAuthAuthenticator [] ∧
    authenticate (buildRegistry [Authenticator.noAuthAuthenticator]) [0] =
      AuthOutcome.noSupportedAuth [socks5Version, noAcceptable] := by
  constructor
  · exact (C4_auth_negotiation (buildRegistry [Authenticator.noAuthAuthenticator]) 2 [7, 0]
      (by decide)).1 1 (by decide)
      (fun j hj => by
        have hj0 : j = 0 := by omega
        subst hj0
        rfl)
      Authenticator.noAuthAuthenticator rfl
  · exact (C4_auth_negotiation (buildRegistry [Authenticator.noAuthAuthenticator]) 0 []
      (by decide)).2 (fun m hm => absurd hm (List.not_mem_nil m))

/-- C5: a CONNECT denied by the rule set yields exactly the
`ruleFailure` (= 2) reply frame, the blocked-by-rules error, and no
dial attempt at all: the recorded dial list is empty and the outcome
does not depend on the dialler. -/
theorem C5_ruleFailure_no_dial (dial : Dialer) (s : Server) (client : TCPAddr)
    (dest realDest : AddrSpec)
    (hdeny : s.config.rules.allowConnect realDest.ip realDest.port
      client.ip client.port = false) :
    handleConnect dial s client dest realDest =
      ⟨[[socks5Version, ruleFailure, 0, ipv4Address, 0, 0, 0, 0, 0, 0]], [],
        GoResult.blockedByRules⟩ ∧
    ruleFailure = 2 ∧
    (∀ dial2 : Dialer, handleConnect dial2 s client dest realDest =
      handleConnect dial s client dest realDest) := by
  have hmain : ∀ d : Dialer, handleConnect d s client dest realDest =
      ⟨[[socks5Version, ruleFailure, 0, ipv4Address, 0, 0, 0, 0, 0, 0]], [],
        GoResult.blockedByRules⟩ := by
    intro d
    unfold handleConnect
    rw [hdeny]
    rfl
  exact ⟨hmain dial, rfl, fun d2 => (hmain d2).trans (hmain dial).symm⟩

/-- Witness for C5: the deny-all server blocks a concrete CONNECT. -/
theorem C5_witness :
    handleConnect (fun _ _ => Except.error "boom") denyServer ⟨[1, 2, 3, 4], 9⟩
      ⟨[], [5, 6, 7, 8], 80⟩ ⟨[], [5, 6, 7, 8], 80⟩ =
      ⟨[[socks5Version, ruleFailure, 0, ipv4Address, 0, 0, 0, 0, 0, 0]], [],
        GoResult.blockedByRules⟩ :=
  (C5_ruleFailure_no_dial (fun _ _ => Except.error "boom") denyServer ⟨[1, 2, 3, 4], 9⟩
    ⟨[], [5, 6, 7, 8], 80⟩ ⟨[], [5, 6, 7, 8], 80⟩ rfl).1

theorem handleConnect_allowed_dials (dial : Dialer) (s : Server) (client : TCPAddr)
    (dest realDest : AddrSpec)
    (hallow : s.config.rules.allowConnect realDest.ip realDest.port
      client.ip client.port = true) :
    (handleConnect dial s client dest realDest).dials = [(realDest.ip, realDest.port)] := by
  unfold handleConnect
  rw [hallow, if_neg (by simp)]
  split
  all_goals first
  | rfl
  | (split <;> rfl)

/-- C6: for a request carrying a domain destination, the configured
rewriter is applied to the destination after name resolution — its
argument is the `AddrSpec` whose IP field is the resolver's answer —
and before rule evaluation and dialing: the rule decision is taken at
the rewritten IP and port, and any dial that happens targets exactly
the rewritten IP and port. -/
theorem C6_rewrite_effective (sys : SysEnv) (s : Server) (client : TCPAddr)
    (f : AddrSpec → AddrSpec) (fqdn : List Byte) (p0 p1 : Byte) (rip : IPBytes)
    (hrw : s.config.rewriter = some f)
    (hfq : fqdn ≠ [])
    (hlen : fqdn.length < 256)
    (hres : s.config.resolver.resolve sys.dns fqdn = Except.ok rip) :
    (s.config.rules.allowConnect (f ⟨fqdn, rip, (p0 <<< 8) ||| p1⟩).ip
        (f ⟨fqdn, rip, (p0 <<< 8) ||| p1⟩).port client.ip client.port = false →
      (handleRequest sys s client
          ([socks5Version, connectCommand, 0, fqdnAddress, fqdn.length] ++
            fqdn ++ [p0, p1])).dials = [] ∧
      (handleRequest sys s client
          ([socks5Version, connectCommand, 0, fqdnAddress, fqdn.length] ++
            fqdn ++ [p0, p1])).result = GoResult.blockedByRules) ∧
    (s.config.rules.allowConnect (f ⟨fqdn, rip, (p0 <<< 8) ||| p1⟩).ip
        (f ⟨fqdn, rip, (p0 <<< 8) ||| p1⟩).port client.ip client.port = true →
      (handleRequest sys s client
          ([socks5Version, connectCommand, 0, fqdnAddress, fqdn.length] ++
            fqdn ++ [p0, p1])).dials =
        [((f ⟨fqdn, rip, (p0 <<< 8) ||| p1⟩).ip,
          (f ⟨fqdn, rip, (p0 <<< 8) ||| p1⟩).port)]) := by
  have hN := readN_append fqdn.length fqdn [p0, p1] rfl
  have hstep : handleRequest sys s client
      ([socks5Version, connectCommand, 0, fqdnAddress, fqdn.length] ++ fqdn ++ [p0, p1]) =
      handleConnect sys.dial s client ⟨fqdn, rip, (p0 <<< 8) ||| p1⟩
        (f ⟨fqdn, rip, (p0 <<< 8) ||| p1⟩) := by
    simp [handleRequest, readAddrSpec, readPort, hN, hfq, hres, hrw,
      socks5Version, connectCommand, fqdnAddress, ipv4Address, ipv6Address]
  rw [hstep]
  constructor
  · intro hdeny
    unfold handleConnect
    rw [hdeny]
    exact ⟨rfl, rfl⟩
  · intro hallow
    exact handleConnect_allowed_dials sys.dial s client _ _ hallow

/-- Witness for C6: the rewriter of `rwServer` redirects `"a":80` (after
its resolver answers `1.1.1.1`) to `9.9.9.9:443`, and that is where the
dial goes. -/
theorem C6_witness :
    (handleRequest sampleSys rwServer ⟨[1, 2, 3, 4], 9⟩
        [socks5Version, connectCommand, 0, fqdnAddress, 1, 97, 0, 80]).dials =
      [([9, 9, 9, 9], 443)] := by
  have h := (C6_rewrite_effective sampleSys rwServer ⟨[1, 2, 3, 4], 9⟩
      (fun _ => ⟨[], [9, 9, 9, 9], 443⟩) [97] 0 80 [1, 1, 1, 1]
      rfl (by decide) (by decide) rfl).2 rfl
  exact h

/-- C7: when the rule set allows a CONNECT but the dial fails, the reply
code sent to the client is chosen by inspecting the failure message:
`connectionRefused` (5) when it contains "refused", otherwise
`networkUnreachable` (3) when it contains "network is unreachable",
otherwise `hostUnreachable` (4); the reply frame is written and the
connect-failed error is the result, terminating the session. -/
theorem C7_dial_failure_classified (dial : Dialer) (s : Server) (client : TCPAddr)
    (dest realDest : AddrSpec) (msg : String)
    (hallow : s.config.rules.allowConnect realDest.ip realDest.port
      client.ip client.port = true)
    (hdial : dial realDest.ip realDest.port = Except.error msg) :
    handleConnect dial s client dest realDest =
      ⟨[[socks5Version,
          if goContains msg "refused" then connectionRefused
          else if goContains msg "network is unreachable" then networkUnreachable
          else hostUnreachable,
          0, ipv4Address, 0, 0, 0, 0, 0, 0]],
        [(realDest.ip, realDest.port)], GoResult.connectFailed msg⟩ ∧
    connectionRefused = 5 ∧ networkUnreachable = 3 ∧ hostUnreachable = 4 := by
  refine ⟨?_, rfl, rfl, rfl⟩
  unfold handleConnect
  rw [hallow, if_neg (by simp), hdial]
  rfl

/-- Witness for C7: a dial failing with "connection refused" yields the
reply byte 5. -/
theorem C7_witness :
    handleConnect (fun _ _ => Except.error "connection refused") sampleServer
      ⟨[1, 2, 3, 4], 9⟩ ⟨[], [5, 6, 7, 8], 80⟩ ⟨[], [5, 6, 7, 8], 80⟩ =
      ⟨[[socks5Version, connectionRefused, 0, ipv4Address, 0, 0, 0, 0, 0, 0]],
        [([5, 6, 7, 8], 80)], GoResult.connectFailed "connection refused"⟩ := by
  have h := (C7_dial_failure_classified (fun _ _ => Except.error "connection refused")
    sampleServer ⟨[1, 2, 3, 4], 9⟩ ⟨[], [5, 6, 7, 8], 80⟩ ⟨[], [5, 6, 7, 8], 80⟩
    "connection refused" rfl rfl).1
  rw [h]
  decide

/-- C8: in every state the accept loop can reach, once the stop signal
has been received no further connection can be accepted; with
wait-semantics the loop cannot release the listener (`finish`) while any
previously accepted connection is still live; and without
wait-semantics the listener is released immediately, whatever the live
count. -/
theorem C8_graceful_shutdown (es : List ServeEvent) (s : ServeState)
    (h : runServe initState es = some s) :
    (s.stopSignal.isSome = true → serveStep s ServeEvent.accept = none) ∧
    (s.stopSignal = some true → 0 < s.live → serveStep s ServeEvent.finish = none) ∧
    (s.stopSignal = some false → s.closed = false →
      serveStep s ServeEvent.finish = some { s with closed := true }) := by
  refine ⟨?_, ?_, ?_⟩
  · intro hs
    have hacc : s.accepting = false :=
      runServe_stop_not_accepting es initState s
        (fun h0 => by simp [initState] at h0) h hs
    simp [serveStep, hacc]
  · intro hsig hlive
    have hne : s.live ≠ 0 := by omega
    simp [serveStep, hsig, hne]
  · intro hsig hcl
    simp [serveStep, hsig, hcl]

/-- Witness for C8: after one accepted connection and a stop-with-wait,
accepting is impossible and so is finishing while the connection is
live. -/
theorem C8_witness :
    serveStep ⟨false, 1, some true, false⟩ ServeEvent.accept = none ∧
    serveStep ⟨false, 1, some true, false⟩ ServeEvent.finish = none := by
  have h := C8_graceful_shutdown [ServeEvent.accept, ServeEvent.stop true]
    ⟨false, 1, some true, false⟩ (by decide)
  exact ⟨h.1 rfl, h.2.1 rfl (by decide)⟩

/-- C9: the configured outbound-dial capability is never consulted by
request handling: replacing the `connectFunc` of a server's
configuration by any other connector leaves every `handleRequest`
outcome unchanged — even though `New` does install `net.Dial` as the
default `connectFunc` when none is supplied.  The dial of
`handleConnect` goes through the fixed `net.DialTCP` oracle instead. -/
theorem C9_connector_never_used :
    (∀ conf : Config, conf.connectFunc = none →
      ∃ s, New conf = Except.ok s ∧ s.config.connectFunc = Connector.netDial) ∧
    (∀ (sys : SysEnv) (s : Server) (client : TCPAddr) (input : List Byte)
        (c : Connector),
      handleRequest sys { s with config := { s.config with connectFunc := c } }
        client input = handleRequest sys s client input) := by
  constructor
  · intro conf hcf
    refine ⟨_, rfl, ?_⟩
    show (match conf.connectFunc with
      | none => Connector.netDial
      | some f => f) = Connector.netDial
    rw [hcf]
  · intro sys s client input c
    rfl

/-- Witness for C9: a server built from the empty configuration carries
`net.Dial`, and swapping in a failing custom connector changes nothing
about a concrete denied CONNECT. -/
theorem C9_witness :
    (∃ s, New emptyConfig = Except.ok s ∧ s.config.connectFunc = Connector.netDial) ∧
    handleRequest sampleSys
        { denyServer with config := { denyServer.config with
            connectFunc := Connector.custom fun _ _ => Except.error "x" } }
        ⟨[1, 2, 3, 4], 9⟩ [socks5Version, connectCommand, 0, ipv4Address, 5, 6, 7, 8, 0, 80] =
      handleRequest sampleSys denyServer ⟨[1, 2, 3, 4], 9⟩
        [socks5Version, connectCommand, 0, ipv4Address, 5, 6, 7, 8, 0, 80] :=
  ⟨C9_connector_never_used.1 emptyConfig rfl,
   C9_connector_never_used.2 sampleSys denyServer ⟨[1, 2, 3, 4], 9⟩
     [socks5Version, connectCommand, 0, ipv4Address, 5, 6, 7, 8, 0, 80]
     (Connector.custom fun _ _ => Except.error "x")⟩

/-- C10: `New` succeeds on every configuration — the error is always
`nil` — and the zero-value fields are replaced by defaults rather than
rejected: some authenticator is always registered (`NoAuth` for the
empty configuration without credentials), a missing resolver becomes
`DNSResolver`, missing rules become `PermitAll`, and a missing connect
function becomes `net.Dial`. -/
theorem C10_New_total_defaults (conf : Config) :
    ∃ s : Server, New conf = Except.ok s ∧
      s.config.authMethods ≠ [] ∧
      (conf.resolver = none → s.config.resolver = NameResolver.dns) ∧
      (conf.rules = none → s.config.rules = PermitAll) ∧
      (conf.connectFunc = none → s.config.connectFunc = Connector.netDial) ∧
      (conf.authMethods = [] → conf.credentials = none →
        s.config.authMethods = [Authenticator.noAuthAuthenticator]) := by
  refine ⟨_, rfl, ?_, ?_, ?_, ?_, ?_⟩
  · show (if conf.authMethods.length = 0 then
        match conf.credentials with
        | some cred => [Authenticator.userPassAuthenticator cred]
        | none => [Authenticator.noAuthAuthenticator]
      else conf.authMethods) ≠ []
    split
    · cases conf.credentials <;> simp
    · next hne => intro hc; rw [hc] at hne; simp at hne
  · intro hr
    show (match conf.resolver with
      | none => NameResolver.dns
      | some r => r) = NameResolver.dns
    rw [hr]
  · intro hr
    show (match conf.rules with
      | none => PermitAll
      | some r => r) = PermitAll
    rw [hr]
  · intro hr
    show (match conf.connectFunc with
      | none => Connector.netDial
      | some f => f) = Connector.netDial
    rw [hr]
  · intro ha hc
    show (if conf.authMethods.length = 0 then
        match conf.credentials with
        | some cred => [Authenticator.userPassAuthenticator cred]
        | none => [Authenticator.noAuthAuthenticator]
      else conf.authMethods) = [Authenticator.noAuthAuthenticator]
    rw [ha, hc]
    rfl

/-- Witness for C10: the zero-value configuration yields a server with
every default installed. -/
theorem C10_witness :
    ∃ s : Server, New emptyConfig = Except.ok s ∧
      s.config.authMethods = [Authenticator.noAuthAuthenticator] ∧
      s.config.resolver = NameResolver.dns ∧
      s.config.rules = PermitAll ∧
      s.config.connectFunc = Connector.netDial := by
  obtain ⟨s, hok, _hne, hres, hrules, hcf, hdef⟩ := C10_New_total_defaults emptyConfig
  exact ⟨s, hok, hdef rfl rfl, hres rfl, hrules rfl, hcf rfl⟩

end GoSocks5
